import Mathlib

/-!
Verification of the `vergen` build feature (`src/feature/build.rs`).

The file embeds the build-feature core as pure Lean functions:
configuration model (`Build`), effective-enabled gate (`Build.has_enabled`),
the instruction generator (`configure_build`, `add_config_entries`, the
three `add_*_entry` helpers), and the date/time formatting used by them.

Side effects of the Rust code are made explicit inputs:
the UTC clock reading (`nowUtc`), the local clock reading
(`nowLocal : Option OffsetDateTime`, `none` meaning the local offset could
not be determined, which the Rust code turns into a panic via `.expect`),
and the `CARGO_PKG_VERSION` environment variable (`cargoPkgVersion`).
A panic is modelled as `Except.error`, carrying the message together with
the output configuration as it stood at the moment of the abort.
-/

namespace Vergen

/-- Modelled from the spec: `timezone: enum {UTC, Local}` — which clock to
sample (the `TimeZone` enum lives in `feature/mod.rs`, outside `src/`). -/
inductive TimeZone
| Utc
| Local
deriving DecidableEq, Repr

/-- Modelled from the spec: `granularity: enum {DateOnly, TimeOnly,
DateAndTime, Timestamp, All}` (the `TimestampKind` enum lives in
`feature/mod.rs`, outside `src/`). -/
inductive TimestampKind
| DateOnly
| TimeOnly
| DateAndTime
| Timestamp
| All
deriving DecidableEq, Repr

/-- Modelled from the spec: the closed key namespace relevant to this core,
`{BuildDate, BuildTime, BuildTimestamp, BuildSemver}` (the `VergenKey` enum
lives in `config.rs`, outside `src/`). -/
inductive VergenKey
| BuildDate
| BuildTime
| BuildTimestamp
| BuildSemver
deriving DecidableEq, Repr

/-- The `Build` configuration struct (`build.rs`, lines 66-77). -/
structure Build where
  enabled : Bool
  timestamp : Bool
  timezone : TimeZone
  kind : TimestampKind
  semver : Bool
deriving DecidableEq, Repr

/-- `impl Default for Build` (`build.rs`, lines 80-90). -/
def Build.default : Build :=
  { enabled := true
    timestamp := true
    timezone := TimeZone.Utc
    kind := TimestampKind.Timestamp
    semver := true }

/-- `Build::has_enabled` (`build.rs`, lines 94-96):
`self.enabled && (self.timestamp || self.semver)`. -/
def Build.has_enabled (b : Build) : Bool :=
  b.enabled && (b.timestamp || b.semver)

/-- Modelled from the spec: the Output Map, "an ordered mapping from a fixed
enumeration of instruction keys to string values" (`Config` and its
`cfg_map` live in `config.rs`, outside `src/`). -/
structure Config where
  cfg_map : List (VergenKey × String)
deriving DecidableEq, Repr

/-- Modelled from the spec: the per-run instruction settings holding the
`Build` configuration (`Instructions` lives in `config.rs`, outside
`src/`). -/
structure Instructions where
  build : Build
deriving DecidableEq, Repr

/-- Modelled from the spec: `add_entry` (in `feature/mod.rs`, outside
`src/`) records a key/value pair in the Output Map; when the value is
unavailable "the corresponding key is simply absent from the Output Map". -/
def add_entry (map : List (VergenKey × String)) (key : VergenKey)
    (value : Option String) : List (VergenKey × String) :=
  match value with
  | some v => map ++ [(key, v)]
  | none => map

/-- The timestamp snapshot: the component view of a `time::OffsetDateTime`
(third-party `time` crate). The year is restricted to the common era
(`time`'s representable formatting range is 0000-9999 without the
`large-dates` feature); the offset is whole minutes. -/
structure OffsetDateTime where
  year : Nat
  month : Nat
  day : Nat
  hour : Nat
  minute : Nat
  second : Nat
  nanosecond : Nat
  offsetMinutes : Int
deriving DecidableEq, Repr

/-- Two-digit zero-padded decimal (the `[month]`, `[day]`, `[hour]`,
`[minute]`, `[second]` components of `time`'s format descriptions). -/
def pad2 (n : Nat) : String :=
  ⟨[Nat.digitChar (n / 10), Nat.digitChar (n % 10)]⟩

/-- Four-digit zero-padded decimal (the `[year]` component). -/
def pad4 (n : Nat) : String :=
  ⟨[Nat.digitChar (n / 1000), Nat.digitChar (n / 100 % 10),
    Nat.digitChar (n / 10 % 10), Nat.digitChar (n % 10)]⟩

/-- Nine-digit zero-padded decimal, used for the RFC 3339 fractional
second before trailing zeros are trimmed. -/
def pad9 (n : Nat) : String :=
  ⟨[Nat.digitChar (n / 100000000 % 10), Nat.digitChar (n / 10000000 % 10),
    Nat.digitChar (n / 1000000 % 10), Nat.digitChar (n / 100000 % 10),
    Nat.digitChar (n / 10000 % 10), Nat.digitChar (n / 1000 % 10),
    Nat.digitChar (n / 100 % 10), Nat.digitChar (n / 10 % 10),
    Nat.digitChar (n % 10)]⟩

/-- Date components representable by the `[year]-[month]-[day]` format. -/
def dateInRange (t : OffsetDateTime) : Bool :=
  t.year ≤ 9999 && 1 ≤ t.month && t.month ≤ 12 && 1 ≤ t.day && t.day ≤ 31

/-- Time components representable by the `[hour]-[minute]-[second]`
format. -/
def timeInRange (t : OffsetDateTime) : Bool :=
  t.hour ≤ 23 && t.minute ≤ 59 && t.second ≤ 59

/-- Sub-second component representable in a timestamp. -/
def nanoInRange (t : OffsetDateTime) : Bool :=
  t.nanosecond < 1000000000

/-- Offsets representable by RFC 3339 (`±hh:mm`). -/
def offsetInRange (t : OffsetDateTime) : Bool :=
  t.offsetMinutes.natAbs ≤ 23 * 60 + 59

/-- A snapshot satisfying the component invariants that a Rust
`OffsetDateTime` maintains by construction. -/
def OffsetDateTime.valid (t : OffsetDateTime) : Prop :=
  dateInRange t = true ∧ timeInRange t = true ∧ nanoInRange t = true ∧
    offsetInRange t = true

instance (t : OffsetDateTime) : Decidable t.valid := by
  unfold OffsetDateTime.valid
  infer_instance

/-- The string produced by `format_description!("[year]-[month]-[day]")`. -/
def dateStr (t : OffsetDateTime) : String :=
  pad4 t.year ++ "-" ++ pad2 t.month ++ "-" ++ pad2 t.day

/-- The string produced by
`format_description!("[hour]-[minute]-[second]")` — hyphen separators. -/
def timeStr (t : OffsetDateTime) : String :=
  pad2 t.hour ++ "-" ++ pad2 t.minute ++ "-" ++ pad2 t.second

/-- The clock part of an RFC 3339 timestamp — colon separators. -/
def timeStrColon (t : OffsetDateTime) : String :=
  pad2 t.hour ++ ":" ++ pad2 t.minute ++ ":" ++ pad2 t.second

/-- The RFC 3339 fractional second: empty when the nanosecond is zero,
otherwise a dot followed by the digits with trailing zeros trimmed. -/
def fracStr (ns : Nat) : String :=
  if ns = 0 then "" else "." ++ ⟨((pad9 ns).data.reverse.dropWhile (· == '0')).reverse⟩

/-- The RFC 3339 offset: `Z` for UTC, otherwise a signed `hh:mm`. -/
def offsetStr (t : OffsetDateTime) : String :=
  if t.offsetMinutes = 0 then "Z"
  else (if t.offsetMinutes < 0 then "-" else "+") ++
    pad2 (t.offsetMinutes.natAbs / 60) ++ ":" ++ pad2 (t.offsetMinutes.natAbs % 60)

/-- The string produced by formatting with
`format_description::well_known::Rfc3339`. -/
def rfc3339Str (t : OffsetDateTime) : String :=
  dateStr t ++ "T" ++ timeStrColon t ++ fracStr t.nanosecond ++ offsetStr t

/-- `now.format(format_description!("[year]-[month]-[day]")).ok()`:
formatting is fallible (`Result` in Rust); out-of-range components are the
failure case, in-range components format as `YYYY-MM-DD`. -/
def OffsetDateTime.formatDate (t : OffsetDateTime) : Option String :=
  if dateInRange t then some (dateStr t) else none

/-- `now.format(format_description!("[hour]-[minute]-[second]")).ok()`. -/
def OffsetDateTime.formatTime (t : OffsetDateTime) : Option String :=
  if timeInRange t then some (timeStr t) else none

/-- `now.format(&format_description::well_known::Rfc3339).ok()`. -/
def OffsetDateTime.formatRfc3339 (t : OffsetDateTime) : Option String :=
  if dateInRange t && timeInRange t && nanoInRange t && offsetInRange t then
    some (rfc3339Str t)
  else none

/-- `add_date_entry` (`build.rs`, lines 148-154). -/
def add_date_entry (config : Config) (now : OffsetDateTime) : Config :=
  { config with
    cfg_map := add_entry config.cfg_map VergenKey.BuildDate now.formatDate }

/-- `add_time_entry` (`build.rs`, lines 157-164). -/
def add_time_entry (config : Config) (now : OffsetDateTime) : Config :=
  { config with
    cfg_map := add_entry config.cfg_map VergenKey.BuildTime now.formatTime }

/-- `add_timestamp_entry` (`build.rs`, lines 167-173). -/
def add_timestamp_entry (config : Config) (now : OffsetDateTime) : Config :=
  { config with
    cfg_map := add_entry config.cfg_map VergenKey.BuildTimestamp now.formatRfc3339 }

/-- `add_config_entries` (`build.rs`, lines 130-145): dispatch on the
timestamp kind. -/
def add_config_entries (config : Config) (build_config : Build)
    (now : OffsetDateTime) : Config :=
  match build_config.kind with
  | TimestampKind.DateOnly => add_date_entry config now
  | TimestampKind.TimeOnly => add_time_entry config now
  | TimestampKind.DateAndTime => add_time_entry (add_date_entry config now) now
  | TimestampKind.Timestamp => add_timestamp_entry config now
  | TimestampKind.All =>
    add_timestamp_entry (add_time_entry (add_date_entry config now) now) now

/-- `configure_build` (`build.rs`, lines 100-127), `feature = "build"`
variant. The clock readings and the environment variable are explicit
inputs; `OffsetDateTime::now_local().expect(..)` panicking is modelled as
`Except.error` carrying the panic message and the output configuration as
it stood at the abort. -/
def configure_build (instructions : Instructions) (nowUtc : OffsetDateTime)
    (nowLocal : Option OffsetDateTime) (cargoPkgVersion : Option String)
    (config : Config) : Except (String × Config) Config :=
  let build_config := instructions.build
  if build_config.has_enabled then
    match (if build_config.timestamp then
        match build_config.timezone, nowLocal with
        | TimeZone.Utc, _ =>
          Except.ok (add_config_entries config build_config nowUtc)
        | TimeZone.Local, some now =>
          Except.ok (add_config_entries config build_config now)
        | TimeZone.Local, none =>
          Except.error ("unable to retrieve local datetime", config)
      else Except.ok config) with
    | Except.error e => Except.error e
    | Except.ok c1 =>
      Except.ok (if build_config.semver then
          { c1 with
            cfg_map := add_entry c1.cfg_map VergenKey.BuildSemver cargoPkgVersion }
        else c1)
  else Except.ok config

/-- `configure_build` (`build.rs`, lines 175-176), the
`cfg(not(feature = "build"))` variant: an empty body. -/
def configure_build_no_build_feature (_instructions : Instructions)
    (config : Config) : Config :=
  config

/-- The keys present in the Output Map, in insertion order. -/
def keysOf (c : Config) : List VergenKey :=
  c.cfg_map.map Prod.fst

/-- The date/time keys present in the Output Map (every key except the
semver key). -/
def dateTimeKeys (c : Config) : List VergenKey :=
  (keysOf c).filter (fun k => k ≠ VergenKey.BuildSemver)

/-- The granularity dispatch table of the spec (section 4.2): which
date/time keys each granularity value emits. -/
def granularityKeys : TimestampKind → List VergenKey
  | TimestampKind.DateOnly => [VergenKey.BuildDate]
  | TimestampKind.TimeOnly => [VergenKey.BuildTime]
  | TimestampKind.DateAndTime => [VergenKey.BuildDate, VergenKey.BuildTime]
  | TimestampKind.Timestamp => [VergenKey.BuildTimestamp]
  | TimestampKind.All =>
    [VergenKey.BuildDate, VergenKey.BuildTime, VergenKey.BuildTimestamp]

/-! ### Sample data for witnesses -/

/-- A concrete valid snapshot used by the witness theorems. -/
def sampleTime : OffsetDateTime :=
  { year := 2021, month := 2, day := 12, hour := 1, minute := 54, second := 15,
    nanosecond := 0, offsetMinutes := 0 }

/-- A configuration with the master switch off, used by a witness. -/
def disabledBuild : Build :=
  { enabled := false, timestamp := true, timezone := TimeZone.Utc,
    kind := TimestampKind.All, semver := true }

/-- A configuration requesting local time, used by a witness. -/
def localBuild : Build :=
  { enabled := true, timestamp := true, timezone := TimeZone.Local,
    kind := TimestampKind.Timestamp, semver := true }

/-! ### Helper lemmas -/

theorem digitChar_isDigit {n : Nat} (h : n < 10) : (Nat.digitChar n).isDigit = true := by
  revert h
  revert n
  decide

theorem add_entry_some (m : List (VergenKey × String)) (k : VergenKey) (s : String) :
    add_entry m k (some s) = m ++ [(k, s)] := rfl

theorem add_entry_none (m : List (VergenKey × String)) (k : VergenKey) :
    add_entry m k none = m := rfl

theorem add_entry_split (m : List (VergenKey × String)) (k : VergenKey)
    (v : Option String) :
    ∃ l, add_entry m k v = m ++ l ∧ List.Sublist (l.map Prod.fst) [k] := by
  cases v with
  | none => exact ⟨[], by simp [add_entry], by simp⟩
  | some s => exact ⟨[(k, s)], rfl, by simp⟩

theorem add_config_entries_split (c : Config) (b : Build) (n : OffsetDateTime) :
    ∃ l, (add_config_entries c b n).cfg_map = c.cfg_map ++ l ∧
      List.Sublist (l.map Prod.fst)
        [VergenKey.BuildDate, VergenKey.BuildTime, VergenKey.BuildTimestamp] := by
  obtain ⟨e, ts, tz, k, sv⟩ := b
  obtain ⟨ld, hd, hds⟩ := add_entry_split c.cfg_map VergenKey.BuildDate n.formatDate
  cases k with
  | DateOnly =>
    refine ⟨ld, ?_, hds.trans (by decide)⟩
    exact hd
  | TimeOnly =>
    obtain ⟨lt, ht, hts⟩ := add_entry_split c.cfg_map VergenKey.BuildTime n.formatTime
    refine ⟨lt, ?_, hts.trans (by decide)⟩
    exact ht
  | DateAndTime =>
    obtain ⟨lt, ht, hts⟩ :=
      add_entry_split (c.cfg_map ++ ld) VergenKey.BuildTime n.formatTime
    refine ⟨ld ++ lt, ?_, ?_⟩
    · show add_entry (add_entry c.cfg_map VergenKey.BuildDate n.formatDate)
        VergenKey.BuildTime n.formatTime = c.cfg_map ++ (ld ++ lt)
      rw [hd, ht, List.append_assoc]
    · rw [List.map_append]
      exact (hds.append hts).trans (by decide)
  | Timestamp =>
    obtain ⟨ls, hs, hss⟩ :=
      add_entry_split c.cfg_map VergenKey.BuildTimestamp n.formatRfc3339
    refine ⟨ls, ?_, hss.trans (by decide)⟩
    exact hs
  | All =>
    obtain ⟨lt, ht, hts⟩ :=
      add_entry_split (c.cfg_map ++ ld) VergenKey.BuildTime n.formatTime
    obtain ⟨ls, hs, hss⟩ :=
      add_entry_split (c.cfg_map ++ ld ++ lt) VergenKey.BuildTimestamp n.formatRfc3339
    refine ⟨ld ++ lt ++ ls, ?_, ?_⟩
    · show add_entry (add_entry (add_entry c.cfg_map VergenKey.BuildDate n.formatDate)
        VergenKey.BuildTime n.formatTime) VergenKey.BuildTimestamp n.formatRfc3339 =
          c.cfg_map ++ (ld ++ lt ++ ls)
      rw [hd, ht, hs, List.append_assoc, List.append_assoc, List.append_assoc]
    · rw [List.map_append, List.map_append]
      exact ((hds.append hts).append hss).trans (by decide)

theorem configure_build_split (i : Instructions) (nowUtc : OffsetDateTime)
    (nl : Option OffsetDateTime) (ver : Option String) (c c2 : Config)
    (h : configure_build i nowUtc nl ver c = Except.ok c2) :
    ∃ l, c2.cfg_map = c.cfg_map ++ l ∧
      List.Sublist (l.map Prod.fst) [VergenKey.BuildDate, VergenKey.BuildTime,
        VergenKey.BuildTimestamp, VergenKey.BuildSemver] := by
  obtain ⟨b⟩ := i
  by_cases he : b.has_enabled = true
  case neg =>
    rw [Bool.not_eq_true] at he
    rw [show configure_build ⟨b⟩ nowUtc nl ver c = Except.ok c by
      simp [configure_build, he]] at h
    simp only [Except.ok.injEq] at h
    exact ⟨[], by rw [← h]; simp, by simp⟩
  case pos =>
  have semver_stage : ∀ c1 : Config,
      (if b.semver = true then
        ({ c1 with cfg_map := add_entry c1.cfg_map VergenKey.BuildSemver ver } : Config)
      else c1) = c2 →
      ∃ l2, c2.cfg_map = c1.cfg_map ++ l2 ∧
        List.Sublist (l2.map Prod.fst) [VergenKey.BuildSemver] := by
    intro c1 hc
    obtain ⟨l2, hl2, hs2⟩ := add_entry_split c1.cfg_map VergenKey.BuildSemver ver
    cases hsem : b.semver with
    | false =>
      rw [hsem] at hc
      simp only [Bool.false_eq_true, if_false] at hc
      exact ⟨[], by rw [← hc]; simp, by simp⟩
    | true =>
      rw [hsem] at hc
      simp only [if_true] at hc
      exact ⟨l2, by rw [← hc]; exact hl2, hs2⟩
  by_cases ht : b.timestamp = true
  case neg =>
    rw [Bool.not_eq_true] at ht
    have hres : configure_build ⟨b⟩ nowUtc nl ver c =
        Except.ok (if b.semver = true then
          ({ c with cfg_map := add_entry c.cfg_map VergenKey.BuildSemver ver } : Config)
        else c) := by
      simp [configure_build, he, ht]
    rw [hres] at h
    simp only [Except.ok.injEq] at h
    obtain ⟨l2, hl2, hs2⟩ := semver_stage c h
    exact ⟨l2, hl2, hs2.trans (by decide)⟩
  case pos =>
  have main : ∀ n0 : OffsetDateTime,
      (if b.semver = true then
        ({ add_config_entries c b n0 with
          cfg_map := add_entry (add_config_entries c b n0).cfg_map
            VergenKey.BuildSemver ver } : Config)
      else add_config_entries c b n0) = c2 →
      ∃ l, c2.cfg_map = c.cfg_map ++ l ∧
        List.Sublist (l.map Prod.fst) [VergenKey.BuildDate, VergenKey.BuildTime,
          VergenKey.BuildTimestamp, VergenKey.BuildSemver] := by
    intro n0 hc
    obtain ⟨l1, hl1, hs1⟩ := add_config_entries_split c b n0
    obtain ⟨l2, hl2, hs2⟩ := semver_stage (add_config_entries c b n0) hc
    refine ⟨l1 ++ l2, ?_, ?_⟩
    · rw [hl2, hl1, List.append_assoc]
    · rw [List.map_append]
      exact (hs1.append hs2).trans (by decide)
  cases htz : b.timezone with
  | Utc =>
    have hres : configure_build ⟨b⟩ nowUtc nl ver c =
        Except.ok (if b.semver = true then
          ({ add_config_entries c b nowUtc with
            cfg_map := add_entry (add_config_entries c b nowUtc).cfg_map
              VergenKey.BuildSemver ver } : Config)
        else add_config_entries c b nowUtc) := by
      simp [configure_build, he, ht, htz]
    rw [hres] at h
    simp only [Except.ok.injEq] at h
    exact main nowUtc h
  | Local =>
    cases nl with
    | none =>
      rw [show configure_build ⟨b⟩ nowUtc none ver c =
          Except.error ("unable to retrieve local datetime", c) by
        simp [configure_build, he, ht, htz]] at h
      exact absurd h (by simp)
    | some now =>
      have hres : configure_build ⟨b⟩ nowUtc (some now) ver c =
          Except.ok (if b.semver = true then
            ({ add_config_entries c b now with
              cfg_map := add_entry (add_config_entries c b now).cfg_map
                VergenKey.BuildSemver ver } : Config)
          else add_config_entries c b now) := by
        simp [configure_build, he, ht, htz]
      rw [hres] at h
      simp only [Except.ok.injEq] at h
      exact main now h

theorem add_config_entries_keys_valid (c : Config) (b : Build)
    (n : OffsetDateTime) (hv : n.valid) :
    keysOf (add_config_entries c b n) = keysOf c ++ granularityKeys b.kind := by
  obtain ⟨hd, htm, hns, ho⟩ := hv
  obtain ⟨e, ts, tz, k, sv⟩ := b
  cases k <;>
    simp [add_config_entries, add_date_entry, add_time_entry, add_timestamp_entry,
      add_entry, OffsetDateTime.formatDate, OffsetDateTime.formatTime,
      OffsetDateTime.formatRfc3339, hd, htm, hns, ho, keysOf, granularityKeys]

theorem filter_not_semver_granularity (k : TimestampKind) :
    (granularityKeys k).filter (fun x => x ≠ VergenKey.BuildSemver) =
      granularityKeys k := by
  cases k <;> rfl

theorem dateTimeKeys_add_semver (c : Config) (ver : Option String) :
    dateTimeKeys ⟨add_entry c.cfg_map VergenKey.BuildSemver ver⟩ = dateTimeKeys c := by
  cases ver <;> simp [dateTimeKeys, keysOf, add_entry]

theorem dateTimeKeys_ace (b : Build) (n : OffsetDateTime) (hv : n.valid) :
    dateTimeKeys (add_config_entries ⟨[]⟩ b n) = granularityKeys b.kind := by
  have h1 := add_config_entries_keys_valid ⟨[]⟩ b n hv
  have h2 : dateTimeKeys (add_config_entries ⟨[]⟩ b n) =
      (keysOf (add_config_entries ⟨[]⟩ b n)).filter
        (fun x => x ≠ VergenKey.BuildSemver) := rfl
  rw [h2, h1]
  have h3 : keysOf (⟨[]⟩ : Config) = [] := rfl
  rw [h3, List.nil_append]
  exact filter_not_semver_granularity b.kind

/-! ### Claim theorems -/

/-- Claim C6: the default-constructed configuration has exactly the
documented defaults: enabled, timestamp enabled, UTC timezone, Timestamp
granularity, semver enabled. -/
theorem default_config_values :
    Build.default.enabled = true ∧ Build.default.timestamp = true ∧
    Build.default.timezone = TimeZone.Utc ∧
    Build.default.kind = TimestampKind.Timestamp ∧
    Build.default.semver = true := by
  decide

/-- Claim C10: with the build feature compiled out, `configure_build` is a
no-op — for every input it returns the output configuration completely
unchanged. -/
theorem no_build_feature_noop (i : Instructions) (c : Config) :
    configure_build_no_build_feature i c = c := rfl

/-- Claim C9: the generator is deterministic — two runs with identical
configuration, identical frozen snapshots, an identical version string and
identical starting output produce identical results, and the three
formatting routines produce byte-identical values on identical
snapshots. -/
theorem generator_deterministic (i1 i2 : Instructions) (n1 n2 : OffsetDateTime)
    (l1 l2 : Option OffsetDateTime) (v1 v2 : Option String) (c1 c2 : Config)
    (hi : i1 = i2) (hn : n1 = n2) (hl : l1 = l2) (hv : v1 = v2) (hc : c1 = c2) :
    configure_build i1 n1 l1 v1 c1 = configure_build i2 n2 l2 v2 c2 ∧
    n1.formatDate = n2.formatDate ∧ n1.formatTime = n2.formatTime ∧
    n1.formatRfc3339 = n2.formatRfc3339 := by
  subst hi hn hl hv hc
  exact ⟨rfl, rfl, rfl, rfl⟩

/-- Witness for C9 at a concrete configuration and snapshot. -/
theorem generator_deterministic_witness :
    configure_build ⟨Build.default⟩ sampleTime none (some "4.2.0") ⟨[]⟩ =
      configure_build ⟨Build.default⟩ sampleTime none (some "4.2.0") ⟨[]⟩ ∧
    sampleTime.formatDate = sampleTime.formatDate ∧
    sampleTime.formatTime = sampleTime.formatTime ∧
    sampleTime.formatRfc3339 = sampleTime.formatRfc3339 :=
  generator_deterministic ⟨Build.default⟩ ⟨Build.default⟩ sampleTime sampleTime
    none none (some "4.2.0") (some "4.2.0") ⟨[]⟩ ⟨[]⟩ rfl rfl rfl rfl rfl

/-- Claim C3: effective-enabled is the pure boolean function
`enabled AND (timestamp OR semver)`, and whenever it is false the generator
inserts nothing: the run succeeds with the output configuration
unchanged (in particular an empty Output Map stays empty). -/
theorem effective_enabled_gate :
    (∀ b : Build, b.has_enabled = (b.enabled && (b.timestamp || b.semver))) ∧
    (∀ (i : Instructions) (nowUtc : OffsetDateTime) (nl : Option OffsetDateTime)
        (ver : Option String) (c : Config), i.build.has_enabled = false →
        configure_build i nowUtc nl ver c = Except.ok c) := by
  constructor
  · intro b
    rfl
  · intro i nowUtc nl ver c h
    simp [configure_build, h]

/-- Witness for C3: a configuration with the master switch off leaves an
empty Output Map empty. -/
theorem effective_enabled_gate_witness :
    Build.default.has_enabled =
      (Build.default.enabled && (Build.default.timestamp || Build.default.semver)) ∧
    configure_build ⟨disabledBuild⟩ sampleTime none (some "4.2.0") ⟨[]⟩ =
      Except.ok ⟨[]⟩ :=
  ⟨effective_enabled_gate.1 Build.default,
    effective_enabled_gate.2 ⟨disabledBuild⟩ sampleTime none (some "4.2.0") ⟨[]⟩
      (by decide)⟩

/-- Claim C2: with the timestamp feature on, requesting local time when the
local offset cannot be determined aborts the whole run with the panic
message, carrying the output configuration unchanged (no entry was inserted
before the abort); capturing under UTC never fails, whatever the local
clock reports. -/
theorem local_offset_fatal (b : Build) (nowUtc : OffsetDateTime)
    (ver : Option String) (c : Config)
    (hb : b.enabled = true) (ht : b.timestamp = true) :
    (b.timezone = TimeZone.Local →
      configure_build ⟨b⟩ nowUtc none ver c =
        Except.error ("unable to retrieve local datetime", c)) ∧
    (∀ nl, b.timezone = TimeZone.Utc →
      ∃ c2, configure_build ⟨b⟩ nowUtc nl ver c = Except.ok c2) := by
  have he : Build.has_enabled b = true := by
    simp [Build.has_enabled, hb, ht]
  constructor
  · intro htz
    simp [configure_build, he, ht, htz]
  · intro nl htz
    cases hsem : b.semver with
    | false =>
      exact ⟨add_config_entries c b nowUtc, by simp [configure_build, he, ht, htz, hsem]⟩
    | true =>
      exact ⟨{ add_config_entries c b nowUtc with
          cfg_map := add_entry (add_config_entries c b nowUtc).cfg_map
            VergenKey.BuildSemver ver },
        by simp [configure_build, he, ht, htz, hsem]⟩

/-- Witness for C2: a concrete local-time configuration with an
undetermined local offset aborts with the output map untouched. -/
theorem local_offset_fatal_witness :
    configure_build ⟨localBuild⟩ sampleTime none (some "4.2.0") ⟨[]⟩ =
      Except.error ("unable to retrieve local datetime", (⟨[]⟩ : Config)) :=
  (local_offset_fatal localBuild sampleTime (some "4.2.0") ⟨[]⟩ rfl rfl).1 rfl

/-- A fully enabled configuration with granularity `All`, used by
witnesses. -/
def allBuild : Build :=
  { enabled := true, timestamp := true, timezone := TimeZone.Utc,
    kind := TimestampKind.All, semver := true }

/-- Like `allBuild` but with the semver instruction off, used by a
witness. -/
def allNoSemverBuild : Build :=
  { enabled := true, timestamp := true, timezone := TimeZone.Utc,
    kind := TimestampKind.All, semver := false }

/-- A configuration with the timestamp feature off, used by a witness. -/
def noTimestampBuild : Build :=
  { enabled := true, timestamp := false, timezone := TimeZone.Local,
    kind := TimestampKind.All, semver := true }

/-- A snapshot whose time component is out of range while the date
component is fine, used to exercise the formatting-failure path. -/
def badTime : OffsetDateTime :=
  { year := 2021, month := 2, day := 12, hour := 99, minute := 0, second := 0,
    nanosecond := 0, offsetMinutes := 0 }

/-- Claim C1: with the run effectively enabled and the timestamp feature
on, the set of date/time keys the generator inserts matches the
granularity dispatch table exactly, for both timezone choices (the
snapshot in effect being the UTC reading under `Utc` and the local reading
under `Local`). -/
theorem granularity_dispatch_table (b : Build) (nowUtc n : OffsetDateTime)
    (nowLocal : Option OffsetDateTime) (ver : Option String)
    (hb : b.enabled = true) (ht : b.timestamp = true)
    (hsnap : (b.timezone = TimeZone.Utc ∧ n = nowUtc) ∨
      (b.timezone = TimeZone.Local ∧ nowLocal = some n))
    (hv : n.valid) :
    ∃ c2, configure_build ⟨b⟩ nowUtc nowLocal ver ⟨[]⟩ = Except.ok c2 ∧
      dateTimeKeys c2 = granularityKeys b.kind := by
  have he : b.has_enabled = true := by
    simp [Build.has_enabled, hb, ht]
  have hfin : ∀ c1 : Config, dateTimeKeys c1 = granularityKeys b.kind →
      dateTimeKeys (if b.semver = true then
        ({ c1 with cfg_map := add_entry c1.cfg_map VergenKey.BuildSemver ver } : Config)
      else c1) = granularityKeys b.kind := by
    intro c1 h1
    cases hsem : b.semver with
    | false => simpa using h1
    | true =>
      simp only [if_true]
      show dateTimeKeys ⟨add_entry c1.cfg_map VergenKey.BuildSemver ver⟩ =
        granularityKeys b.kind
      rw [dateTimeKeys_add_semver c1 ver]
      exact h1
  rcases hsnap with ⟨htz, rfl⟩ | ⟨htz, rfl⟩
  · have hres : configure_build ⟨b⟩ n nowLocal ver ⟨[]⟩ =
        Except.ok (if b.semver = true then
          ({ add_config_entries ⟨[]⟩ b n with
            cfg_map := add_entry (add_config_entries ⟨[]⟩ b n).cfg_map
              VergenKey.BuildSemver ver } : Config)
        else add_config_entries ⟨[]⟩ b n) := by
      simp [configure_build, he, ht, htz]
    exact ⟨_, hres, hfin _ (dateTimeKeys_ace b n hv)⟩
  · have hres : configure_build ⟨b⟩ nowUtc (some n) ver ⟨[]⟩ =
        Except.ok (if b.semver = true then
          ({ add_config_entries ⟨[]⟩ b n with
            cfg_map := add_entry (add_config_entries ⟨[]⟩ b n).cfg_map
              VergenKey.BuildSemver ver } : Config)
        else add_config_entries ⟨[]⟩ b n) := by
      simp [configure_build, he, ht, htz]
    exact ⟨_, hres, hfin _ (dateTimeKeys_ace b n hv)⟩

/-- Witness for C1: a concrete fully enabled UTC run at granularity `All`
emits exactly the three date/time keys of the table. -/
theorem granularity_dispatch_table_witness :
    ∃ c2, configure_build ⟨allBuild⟩ sampleTime none (some "4.2.0") ⟨[]⟩ =
      Except.ok c2 ∧ dateTimeKeys c2 = granularityKeys allBuild.kind :=
  granularity_dispatch_table allBuild sampleTime sampleTime none (some "4.2.0")
    rfl rfl (Or.inl ⟨rfl, rfl⟩) (by decide)

/-- Claim C4: a missing version string and an individual formatting
failure are recoverable. With no version string available the run still
succeeds and the semver key is absent; and at granularity `All` each of
the three date/time keys is inserted exactly when its own formatting
succeeds, independently of the other two. -/
theorem recoverable_omissions (b : Build) (nowUtc : OffsetDateTime)
    (nl : Option OffsetDateTime)
    (hsnap : b.timezone = TimeZone.Utc ∨ ∃ n0, nl = some n0) :
    (∃ c2, configure_build ⟨b⟩ nowUtc nl none ⟨[]⟩ = Except.ok c2 ∧
      VergenKey.BuildSemver ∉ keysOf c2) ∧
    (∀ (c : Config) (now : OffsetDateTime), b.kind = TimestampKind.All →
      keysOf (add_config_entries c b now) =
        keysOf c ++ ((if now.formatDate.isSome then [VergenKey.BuildDate] else []) ++
          (if now.formatTime.isSome then [VergenKey.BuildTime] else []) ++
          (if now.formatRfc3339.isSome then [VergenKey.BuildTimestamp] else []))) := by
  constructor
  · have hnot : ∀ n0 : OffsetDateTime,
        VergenKey.BuildSemver ∉ keysOf (add_config_entries ⟨[]⟩ b n0) := by
      intro n0 hmem
      obtain ⟨l, hl, hs⟩ := add_config_entries_split ⟨[]⟩ b n0
      have hk : keysOf (add_config_entries ⟨[]⟩ b n0) = l.map Prod.fst := by
        simp [keysOf, hl]
      rw [hk] at hmem
      exact absurd (hs.subset hmem) (by decide)
    by_cases he : b.has_enabled = true
    case neg =>
      rw [Bool.not_eq_true] at he
      exact ⟨⟨[]⟩, by simp [configure_build, he], by simp [keysOf]⟩
    case pos =>
    by_cases ht : b.timestamp = true
    case neg =>
      rw [Bool.not_eq_true] at ht
      have hres : configure_build ⟨b⟩ nowUtc nl none ⟨[]⟩ = Except.ok ⟨[]⟩ := by
        cases hsem : b.semver <;> simp [configure_build, he, ht, hsem, add_entry]
      exact ⟨⟨[]⟩, hres, by simp [keysOf]⟩
    case pos =>
    cases htz : b.timezone with
    | Utc =>
      have hres : configure_build ⟨b⟩ nowUtc nl none ⟨[]⟩ =
          Except.ok (add_config_entries ⟨[]⟩ b nowUtc) := by
        cases hsem : b.semver <;>
          simp [configure_build, he, ht, htz, hsem, add_entry]
      exact ⟨_, hres, hnot nowUtc⟩
    | Local =>
      rcases hsnap with htz2 | ⟨n0, rfl⟩
      · rw [htz] at htz2
        exact absurd htz2 (by simp)
      · have hres : configure_build ⟨b⟩ nowUtc (some n0) none ⟨[]⟩ =
            Except.ok (add_config_entries ⟨[]⟩ b n0) := by
          cases hsem : b.semver <;>
            simp [configure_build, he, ht, htz, hsem, add_entry]
        exact ⟨_, hres, hnot n0⟩
  · intro c now hk
    obtain ⟨e, ts, tz, k, sv⟩ := b
    replace hk : k = TimestampKind.All := hk
    subst hk
    cases hfd : now.formatDate <;> cases hft : now.formatTime <;>
      cases hfr : now.formatRfc3339 <;>
      simp [add_config_entries, add_date_entry, add_time_entry,
        add_timestamp_entry, add_entry, keysOf, hfd, hft, hfr]

/-- Witness for C4: a run with no version string omits the semver key, and
a snapshot whose time component is broken still gets its date key while
the time and combined-timestamp keys are omitted. -/
theorem recoverable_omissions_witness :
    (∃ c2, configure_build ⟨allBuild⟩ sampleTime none none ⟨[]⟩ =
      Except.ok c2 ∧ VergenKey.BuildSemver ∉ keysOf c2) ∧
    keysOf (add_config_entries ⟨[]⟩ allBuild badTime) =
      keysOf (⟨[]⟩ : Config) ++
        ((if badTime.formatDate.isSome then [VergenKey.BuildDate] else []) ++
          (if badTime.formatTime.isSome then [VergenKey.BuildTime] else []) ++
          (if badTime.formatRfc3339.isSome then [VergenKey.BuildTimestamp] else [])) :=
  ⟨(recoverable_omissions allBuild sampleTime none (Or.inl rfl)).1,
    (recoverable_omissions allBuild sampleTime none (Or.inl rfl)).2 ⟨[]⟩ badTime rfl⟩

/-- Claim C8: starting from an empty Output Map, a successful run inserts
only keys from the closed set {BuildDate, BuildTime, BuildTimestamp,
BuildSemver}, and each key at most once (the key list of the result has no
duplicates). -/
theorem closed_keys_write_once (i : Instructions) (nowUtc : OffsetDateTime)
    (nl : Option OffsetDateTime) (ver : Option String) (c2 : Config)
    (h : configure_build i nowUtc nl ver ⟨[]⟩ = Except.ok c2) :
    (∀ k ∈ keysOf c2, k ∈ [VergenKey.BuildDate, VergenKey.BuildTime,
      VergenKey.BuildTimestamp, VergenKey.BuildSemver]) ∧
    (keysOf c2).Nodup := by
  obtain ⟨l, hl, hs⟩ := configure_build_split i nowUtc nl ver ⟨[]⟩ c2 h
  have hk : keysOf c2 = l.map Prod.fst := by
    simp [keysOf, hl]
  rw [hk]
  exact ⟨fun k hkm => hs.subset hkm, List.Nodup.sublist hs (by decide)⟩

/-- Witness for C8 on a concrete default run. -/
theorem closed_keys_write_once_witness :
    (∀ k ∈ keysOf ⟨[(VergenKey.BuildTimestamp, "2021-02-12T01:54:15Z"),
        (VergenKey.BuildSemver, "4.2.0")]⟩,
      k ∈ [VergenKey.BuildDate, VergenKey.BuildTime,
        VergenKey.BuildTimestamp, VergenKey.BuildSemver]) ∧
    (keysOf ⟨[(VergenKey.BuildTimestamp, "2021-02-12T01:54:15Z"),
        (VergenKey.BuildSemver, "4.2.0")]⟩).Nodup :=
  closed_keys_write_once ⟨Build.default⟩ sampleTime none (some "4.2.0")
    ⟨[(VergenKey.BuildTimestamp, "2021-02-12T01:54:15Z"),
      (VergenKey.BuildSemver, "4.2.0")]⟩ rfl

/-- Claim C7: in a run at granularity `All` under UTC with the semver
instruction off, all three date/time entries in the Output Map are derived
from the one snapshot passed to the dispatch — their date and clock
components agree by construction — and when the timestamp feature is off
the generator never reads either clock (its result does not depend on
them). -/
theorem single_snapshot_consistency (b : Build) (now : OffsetDateTime)
    (nl : Option OffsetDateTime) (ver : Option String)
    (hb : b.enabled = true) (ht : b.timestamp = true)
    (hk : b.kind = TimestampKind.All) (htz : b.timezone = TimeZone.Utc)
    (hsem : b.semver = false) (hv : now.valid) :
    (∃ c2, configure_build ⟨b⟩ now nl ver ⟨[]⟩ = Except.ok c2 ∧
      c2.cfg_map = [(VergenKey.BuildDate, dateStr now),
        (VergenKey.BuildTime, timeStr now),
        (VergenKey.BuildTimestamp, rfc3339Str now)]) ∧
    dateStr now = pad4 now.year ++ "-" ++ pad2 now.month ++ "-" ++ pad2 now.day ∧
    timeStr now = pad2 now.hour ++ "-" ++ pad2 now.minute ++ "-" ++ pad2 now.second ∧
    rfc3339Str now =
      dateStr now ++ "T" ++ timeStrColon now ++ fracStr now.nanosecond ++ offsetStr now ∧
    timeStrColon now = pad2 now.hour ++ ":" ++ pad2 now.minute ++ ":" ++ pad2 now.second ∧
    (∀ (b2 : Build) (n1 n2 : OffsetDateTime) (l1 l2 : Option OffsetDateTime)
      (v : Option String) (c : Config), b2.timestamp = false →
      configure_build ⟨b2⟩ n1 l1 v c = configure_build ⟨b2⟩ n2 l2 v c) := by
  obtain ⟨hd, htm, hns, ho⟩ := hv
  have he : b.has_enabled = true := by
    simp [Build.has_enabled, hb, ht]
  refine ⟨⟨add_config_entries ⟨[]⟩ b now, ?_, ?_⟩, rfl, rfl, rfl, rfl, ?_⟩
  · simp [configure_build, he, ht, htz, hsem]
  · simp [add_config_entries, hk, add_date_entry, add_time_entry,
      add_timestamp_entry, add_entry, OffsetDateTime.formatDate,
      OffsetDateTime.formatTime, OffsetDateTime.formatRfc3339, hd, htm, hns, ho]
  · intro b2 n1 n2 l1 l2 v c ht2
    cases he2 : b2.has_enabled <;> simp [configure_build, he2, ht2]

/-- Witness for C7 on a concrete snapshot, with a clock-independence
instance for a timestamp-disabled configuration. -/
theorem single_snapshot_consistency_witness :
    (∃ c2, configure_build ⟨allNoSemverBuild⟩ sampleTime none none ⟨[]⟩ =
      Except.ok c2 ∧
      c2.cfg_map = [(VergenKey.BuildDate, dateStr sampleTime),
        (VergenKey.BuildTime, timeStr sampleTime),
        (VergenKey.BuildTimestamp, rfc3339Str sampleTime)]) ∧
    dateStr sampleTime =
      pad4 sampleTime.year ++ "-" ++ pad2 sampleTime.month ++ "-" ++
        pad2 sampleTime.day ∧
    configure_build ⟨noTimestampBuild⟩ sampleTime none none ⟨[]⟩ =
      configure_build ⟨noTimestampBuild⟩ badTime (some badTime) none ⟨[]⟩ :=
  ⟨(single_snapshot_consistency allNoSemverBuild sampleTime none none
      rfl rfl rfl rfl rfl (by decide)).1,
    (single_snapshot_consistency allNoSemverBuild sampleTime none none
      rfl rfl rfl rfl rfl (by decide)).2.1,
    (single_snapshot_consistency allNoSemverBuild sampleTime none none
      rfl rfl rfl rfl rfl (by decide)).2.2.2.2.2 noTimestampBuild sampleTime
      badTime none (some badTime) none ⟨[]⟩ rfl⟩

/-- Claim C5: on a valid snapshot the date formats as a 10-character
`YYYY-MM-DD` string, the time as an 8-character `HH-MM-SS` string with
hyphen separators (not colons), and the combined timestamp as an RFC 3339
string: date, `T`, colon-separated clock, optional fraction, and an offset
that is either `Z` or a signed `hh:mm`. -/
theorem format_shapes (t : OffsetDateTime) (hv : t.valid) :
    (∃ s, t.formatDate = some s ∧ s.length = 10 ∧
      ∃ y1 y2 y3 y4 m1 m2 d1 d2,
        s.data = [y1, y2, y3, y4, '-', m1, m2, '-', d1, d2] ∧
        ∀ ch ∈ [y1, y2, y3, y4, m1, m2, d1, d2], ch.isDigit = true) ∧
    (∃ s, t.formatTime = some s ∧ s.length = 8 ∧
      ∃ h1 h2 mi1 mi2 s1 s2,
        s.data = [h1, h2, '-', mi1, mi2, '-', s1, s2] ∧
        ∀ ch ∈ [h1, h2, mi1, mi2, s1, s2], ch.isDigit = true) ∧
    (∃ s, t.formatRfc3339 = some s ∧
      s = dateStr t ++ "T" ++ timeStrColon t ++ fracStr t.nanosecond ++ offsetStr t ∧
      (offsetStr t = "Z" ∨ ∃ sg, (sg = "+" ∨ sg = "-") ∧
        offsetStr t = sg ++ pad2 (t.offsetMinutes.natAbs / 60) ++ ":" ++
          pad2 (t.offsetMinutes.natAbs % 60))) := by
  obtain ⟨hd, htm, hns, ho⟩ := hv
  have hdp := hd
  have htp := htm
  simp only [dateInRange, Bool.and_eq_true, decide_eq_true_eq] at hdp
  simp only [timeInRange, Bool.and_eq_true, decide_eq_true_eq] at htp
  obtain ⟨⟨⟨⟨hy, hm1⟩, hm2⟩, hd1⟩, hd2⟩ := hdp
  obtain ⟨⟨hh, hmi⟩, hs⟩ := htp
  refine ⟨⟨dateStr t, ?_, rfl, ?_⟩, ⟨timeStr t, ?_, rfl, ?_⟩,
    ⟨rfc3339Str t, ?_, rfl, ?_⟩⟩
  · simp [OffsetDateTime.formatDate, hd]
  · refine ⟨_, _, _, _, _, _, _, _, rfl, ?_⟩
    intro ch hch
    simp only [List.mem_cons, List.not_mem_nil, or_false] at hch
    rcases hch with rfl | rfl | rfl | rfl | rfl | rfl | rfl | rfl <;>
      exact digitChar_isDigit (by omega)
  · simp [OffsetDateTime.formatTime, htm]
  · refine ⟨_, _, _, _, _, _, rfl, ?_⟩
    intro ch hch
    simp only [List.mem_cons, List.not_mem_nil, or_false] at hch
    rcases hch with rfl | rfl | rfl | rfl | rfl | rfl <;>
      exact digitChar_isDigit (by omega)
  · simp [OffsetDateTime.formatRfc3339, hd, htm, hns, ho]
  · by_cases hz : t.offsetMinutes = 0
    · left
      simp [offsetStr, hz]
    · right
      refine ⟨if t.offsetMinutes < 0 then "-" else "+", ?_, ?_⟩
      · by_cases hneg : t.offsetMinutes < 0
        · exact Or.inr (by simp [hneg])
        · exact Or.inl (by simp [hneg])
      · simp [offsetStr, hz]

/-- Witness for C5 at a concrete snapshot. -/
theorem format_shapes_witness :
    (∃ s, sampleTime.formatDate = some s ∧ s.length = 10 ∧
      ∃ y1 y2 y3 y4 m1 m2 d1 d2,
        s.data = [y1, y2, y3, y4, '-', m1, m2, '-', d1, d2] ∧
        ∀ ch ∈ [y1, y2, y3, y4, m1, m2, d1, d2], ch.isDigit = true) ∧
    (∃ s, sampleTime.formatTime = some s ∧ s.length = 8 ∧
      ∃ h1 h2 mi1 mi2 s1 s2,
        s.data = [h1, h2, '-', mi1, mi2, '-', s1, s2] ∧
        ∀ ch ∈ [h1, h2, mi1, mi2, s1, s2], ch.isDigit = true) ∧
    (∃ s, sampleTime.formatRfc3339 = some s ∧
      s = dateStr sampleTime ++ "T" ++ timeStrColon sampleTime ++
        fracStr sampleTime.nanosecond ++ offsetStr sampleTime ∧
      (offsetStr sampleTime = "Z" ∨ ∃ sg, (sg = "+" ∨ sg = "-") ∧
        offsetStr sampleTime = sg ++ pad2 (sampleTime.offsetMinutes.natAbs / 60) ++
          ":" ++ pad2 (sampleTime.offsetMinutes.natAbs % 60))) :=
  format_shapes sampleTime (by decide)

end Vergen
